import Mathlib

/-!
Verification development for the RSS news aggregation service (src/index.js).

The JavaScript source is shallowly embedded: every function is translated to a
total Lean definition.  JS strings are Lean `String`s (ASCII assumed, so the
UTF-16 `length` agrees with `String.length`), JS `undefined` is `Option.none`,
a thrown exception is `Except.error`, and outbound network fetches are passed
in as explicit `Except`-valued arguments.  JS `Array.prototype.sort` (stable)
is modelled by a stable insertion sort, and JS numeric scores by `Rat`.
-/

namespace NewsAgg

/-- Boolean test that the first character list is a prefix of the second. -/
def isPrefixChars : List Char → List Char → Bool
  | [], _ => true
  | _ :: _, [] => false
  | a :: as, b :: bs => a == b && isPrefixChars as bs

/-- Boolean test that `sep` occurs as a contiguous sublist of the second list;
models JS `String.prototype.includes`. -/
def containsSub (sep : List Char) : List Char → Bool
  | [] => isPrefixChars sep []
  | c :: cs => isPrefixChars sep (c :: cs) || containsSub sep cs

/-- Worker for `splitOnSub`: `acc` holds the (reversed) current chunk. -/
def splitOnAux (sep : List Char) : List Char → List Char → List (List Char)
  | [], acc => [acc.reverse]
  | c :: cs, acc =>
    if isPrefixChars sep (c :: cs) then
      acc.reverse :: splitOnAux sep (cs.drop (sep.length - 1)) []
    else
      splitOnAux sep cs (c :: acc)
termination_by l _ => l.length
decreasing_by
  all_goals simp only [List.length_drop, List.length_cons]
  all_goals omega

/-- Split a character list on a fixed nonempty separator sublist; models JS
`String.prototype.split` with a string separator. -/
def splitOnSub (sep : List Char) (l : List Char) : List (List Char) :=
  splitOnAux sep l []

mutual

/-- Worker for `jsSplit`: `acc` holds the (reversed) current chunk. -/
def jsSplitAux (isSep : Char → Bool) : List Char → List Char → List String
  | [], acc => [String.mk acc.reverse]
  | c :: cs, acc =>
    if isSep c then String.mk acc.reverse :: jsSplitRun isSep cs
    else jsSplitAux isSep cs (c :: acc)

/-- Worker for `jsSplit`: skips the rest of a separator run. -/
def jsSplitRun (isSep : Char → Bool) : List Char → List String
  | [] => [""]
  | c :: cs => if isSep c then jsSplitRun isSep cs else jsSplitAux isSep cs [c]

end

/-- Models JS `str.split(regex)` where `regex` matches a nonempty run of
characters satisfying `isSep` (e.g. `/\s+/`): interior separator runs yield no
empty chunks, but a leading or trailing run yields an empty chunk, and the
empty string splits to `[""]`, exactly as in JavaScript. -/
def jsSplit (isSep : Char → Bool) (s : String) : List String :=
  jsSplitAux isSep s.data []

/-- Models `str.split(/\s+/)` from the source. -/
def jsSplitWs (s : String) : List String :=
  jsSplit Char.isWhitespace s

/-- Models `str.split(/\W+/)` from the source (`\w` is `[A-Za-z0-9_]`). -/
def jsSplitNonWord (s : String) : List String :=
  jsSplit (fun c => !(c.isAlphanum || c == '_')) s

/-- Strip leading and trailing whitespace from a character list. -/
def trimChars (l : List Char) : List Char :=
  ((l.dropWhile Char.isWhitespace).reverse.dropWhile Char.isWhitespace).reverse

/-- Models JS `String.prototype.trim`. -/
def jsTrim (s : String) : String :=
  String.mk (trimChars s.data)

mutual

/-- Worker for `collapseWs`: copies characters, replacing each whitespace run
by a single space. -/
def collapseWsAux : List Char → List Char
  | [] => []
  | c :: cs =>
    if c.isWhitespace then ' ' :: collapseWsSkip cs else c :: collapseWsAux cs

/-- Worker for `collapseWs`: inside a whitespace run. -/
def collapseWsSkip : List Char → List Char
  | [] => []
  | c :: cs => if c.isWhitespace then collapseWsSkip cs else c :: collapseWsAux cs

end

/-- Models `str.replace(/\s+/g, ' ').trim()` (and the equivalent
`trim()`-first composition used at src/index.js:178). -/
def collapseWs (s : String) : String :=
  jsTrim (String.mk (collapseWsAux s.data))

/-- Models JS `String.prototype.toLowerCase` (ASCII). -/
def jsToLower (s : String) : String :=
  String.mk (s.data.map Char.toLower)

/-- Models JS `String.prototype.startsWith`. -/
def strStartsWith (s pre : String) : Bool :=
  isPrefixChars pre.data s.data

/-- Models JS `Array.prototype.join(sep)` on an array of strings. -/
def joinWith (sep : String) : List String → String
  | [] => ""
  | [s] => s
  | s :: rest => s ++ sep ++ joinWith sep rest

/-- Insert `a` into a sorted list, after any tied elements already present. -/
def stableInsert {α : Type} (le : α → α → Bool) (a : α) : List α → List α
  | [] => [a]
  | b :: bs => if le a b then a :: b :: bs else b :: stableInsert le a bs

/-- Stable sort; models JS `Array.prototype.sort(cmp)` (stable per ES2019)
where `le a b` means `cmp(a, b) <= 0` for a total preorder comparator. -/
def stableSort {α : Type} (le : α → α → Bool) : List α → List α
  | [] => []
  | a :: as => stableInsert le a (stableSort le as)

/-- Models JS `s || d` for a string `s` (empty string is falsy). -/
def jsOr (s d : String) : String :=
  if s = "" then d else s

/-- Models JS `x || d` where `x` may be `undefined` or a string. -/
def jsOrOpt (o : Option String) (d : String) : String :=
  match o with
  | some s => jsOr s d
  | none => d

/-- Models interpolation of a possibly-`undefined` value into a JS template
literal (undefined prints as the string "undefined"). -/
def jsTemplate (o : Option String) : String :=
  o.getD "undefined"

/-- Worker for `sentenceTokenize`: splits after `.`/`!`/`?` followed by
whitespace, keeping the punctuation and dropping the whitespace. -/
def sentenceSplitAux : List Char → List Char → List String
  | [], acc => if acc.isEmpty then [] else [String.mk acc.reverse]
  | [c], acc => [String.mk (c :: acc).reverse]
  | ca :: cb :: rest, acc =>
    if (ca = '.' ∨ ca = '!' ∨ ca = '?') ∧ cb.isWhitespace then
      String.mk (acc.reverse ++ [ca]) :: sentenceSplitAux rest []
    else
      sentenceSplitAux (cb :: rest) (ca :: acc)

/-- Executable model of the external `natural` library's `SentenceTokenizer`
used at src/index.js:208-209: regex-based sentence splitting at sentence-final
punctuation followed by whitespace. -/
def sentenceTokenize (s : String) : List String :=
  sentenceSplitAux s.data []

/-- The fixed English stopword list of src/index.js:224-228. -/
def stopwords : List String :=
  ["a", "an", "the", "and", "or", "but", "is", "are", "was", "were",
   "in", "on", "at", "to", "for", "with", "by", "about", "from", "of",
   "that", "this", "these", "those", "it", "its"]

/-- One entry of the `sentenceScores` array of src/index.js:242-258. -/
structure ScoredSentence where
  sentence : String
  score : Rat
  wordCount : Nat

/-- The rebuild loop of src/index.js:272-291: re-adds the selected sentences
in order while the running word count fits within `maxWords`; when the next
sentence does not fit and nothing was added yet (or the total is still below
`minWords`), appends a word-level prefix of it plus an ellipsis and stops.
Returns the built summary and the running word count. -/
def rebuildLoop (minWords maxWords : Nat) : List String → String → Nat → String × Nat
  | [], summary, cw => (summary, cw)
  | s :: rest, summary, cw =>
    let swc := (jsSplitWs s).length
    if cw + swc ≤ maxWords then
      rebuildLoop minWords maxWords rest (summary ++ s ++ " ") (cw + swc)
    else if summary = "" ∨ cw < minWords then
      (summary ++ joinWith " " ((jsSplitWs s).take (min (maxWords - cw) swc)) ++ "... ",
       cw + min (maxWords - cw) swc)
    else
      (summary, cw)

/-- The loop of src/index.js:306-315: appends next-ranked sentences that still
fit under `maxWords`, stopping once `minWords` is reached. -/
def addLoop (minWords maxWords : Nat) : List ScoredSentence → String → Nat → String × Nat
  | [], summary, wc => (summary, wc)
  | item :: rest, summary, wc =>
    if wc + item.wordCount ≤ maxWords then
      if minWords ≤ wc + item.wordCount then
        (summary ++ " " ++ item.sentence, wc + item.wordCount)
      else
        addLoop minWords maxWords rest (summary ++ " " ++ item.sentence) (wc + item.wordCount)
    else
      addLoop minWords maxWords rest summary wc

/-- Embedding of `summarizeText` (src/index.js:191-339).  In the source
`minWords` defaults to 55 and `maxWords` to 60; here both are explicit
arguments and each call site passes what the JS call passes (an omitted JS
argument becomes the default value).  The `try/catch` wrapper of the source
is dead code in this pure embedding (no step can throw), so the catch-branch
fallback of lines 328-338 is not reachable and not modelled. -/
def summarizeText (text : String) (minWords maxWords : Nat) : String :=
  if text = "" then text
  else if text.length < 100 then
    -- lines 193-201: short-text padding
    let ws := jsSplitWs text
    if ws.length < minWords then
      text ++ " " ++ joinWith " " (ws.take (minWords - ws.length))
    else text
  else
    let t := collapseWs text
    let sentences := sentenceTokenize t
    if sentences.length ≤ 3 then
      -- lines 211-220
      let words := jsSplitWs t
      if words.length ≤ maxWords ∧ minWords ≤ words.length then t
      else if words.length < minWords then
        joinWith " " ((words ++ words.take (minWords - words.length)).take maxWords)
      else
        joinWith " " (words.take maxWords) ++ "..."
    else
      -- lines 222-327: frequency-based extractive scoring
      let freqWords := (sentences.map (fun s =>
        (jsSplitNonWord (jsToLower s)).filter
          (fun w => decide (1 < w.length) && !(stopwords.contains w)))).flatten
      let freq : String → Nat := fun w => freqWords.count w
      let sentenceScores : List ScoredSentence := sentences.map (fun s =>
        let words := (jsSplitNonWord (jsToLower s)).filter (fun w => decide (1 < w.length))
        let score : Rat := words.foldl
          (fun acc w =>
            if freq w ≠ 0 ∧ ¬ stopwords.contains w = true then acc + (freq w : Rat) else acc)
          0
        ⟨s, if 0 < words.length then score / (words.length : Rat) else 0, (jsSplitWs s).length⟩)
      let sortedByScore := stableSort (fun a b => decide (b.score ≤ a.score)) sentenceScores
      let top5 := stableSort
        (fun a b => Nat.ble (sentences.indexOf a.sentence) (sentences.indexOf b.sentence))
        (sortedByScore.take 5)
      let topSentences := top5.map ScoredSentence.sentence
      let summary := joinWith " " topSentences
      let wordCount := (jsSplitWs summary).length
      let summary :=
        if maxWords < wordCount then (rebuildLoop minWords maxWords topSentences "" 0).1
        else summary
      let wordCount := (jsSplitWs (jsTrim summary)).length
      if wordCount < minWords then
        let p :=
          if topSentences.length < sentences.length then
            let additional := stableSort
              (fun a b => Nat.ble (sentences.indexOf a.sentence) (sentences.indexOf b.sentence))
              ((sortedByScore.drop 5).take 5)
            addLoop minWords maxWords additional summary wordCount
          else (summary, wordCount)
        if p.2 < minWords then
          let firstSentence := topSentences.headD ""
          let keyWords := (jsSplitWs firstSentence).take (minWords - p.2)
          jsTrim (p.1 ++ " Additional context: " ++ joinWith " " keyWords ++ ".")
        else jsTrim p.1
      else jsTrim summary

/-- The attribute object (`$`) of a structured `<link>` element as produced by
xml2js with `explicitArray: false`. -/
structure LinkAttrs where
  href : Option String := none
deriving DecidableEq

/-- A raw `link` field: either bare text or an attributed element (which may
or may not carry a `$` attribute object). -/
inductive RawLink
  | str (s : String)
  | elem (attrs : Option LinkAttrs)
deriving DecidableEq

/-- A raw `guid` field: either bare text or a wrapper object whose text body
(`_`) may be absent. -/
inductive RawGuid
  | str (s : String)
  | wrapped (text : Option String)
deriving DecidableEq

/-- The JS value ending up in the `guid` field of a normalized item.  The
source performs no final string coercion, so a wrapper object without a text
body, or a structured link element used as fallback, flows through as-is. -/
inductive GuidOut
  | str (s : String)
  | wrappedObj (text : Option String)
  | linkElem (attrs : Option LinkAttrs)
deriving DecidableEq

/-- The attribute object (`$`) of an enclosure / media:content /
media:thumbnail element. -/
structure MediaAttrs where
  type : Option String := none
  url : Option String := none
deriving DecidableEq

/-- An enclosure or media element; `attrs` is its `$` attribute object, which
xml2js omits when the XML element carries no attributes. -/
structure MediaElem where
  attrs : Option MediaAttrs := none
deriving DecidableEq

/-- A raw feed item as handed to the per-item normalization callback of
`fetchRSSFeed` (src/index.js:36).  Absent XML children are `none`. -/
structure RawItem where
  guid : Option RawGuid := none
  id : Option String := none
  link : Option RawLink := none
  title : Option String := none
  description : Option String := none
  summary : Option String := none
  pubDate : Option String := none
  published : Option String := none
  updated : Option String := none
  enclosure : Option MediaElem := none
  mediaContent : Option MediaElem := none
  mediaThumbnail : Option MediaElem := none
deriving DecidableEq

/-- The normalized item shape built at src/index.js:74-83 (field order is the
JS object key insertion order). -/
structure CanonicalItem where
  guid : GuidOut
  title : String
  description : String
  link : Option String
  pubDate : String
  imageUrl : Option String
  source : String
  sourceName : String
deriving DecidableEq

/-- Link resolution, src/index.js:69-72: `typeof link === 'object'` is false
for an absent (`undefined`) link, so an absent link stays absent; a structured
element yields its `$.href` (possibly absent) when a `$` object exists, and
the sentinel "#" only when it does not. -/
def resolveLink : Option RawLink → Option String
  | none => none
  | some (RawLink.str s) => some s
  | some (RawLink.elem none) => some "#"
  | some (RawLink.elem (some a)) => a.href

/-- The synthetic guid template of src/index.js:65. -/
def syntheticGuid (url : String) (item : RawItem) : GuidOut :=
  GuidOut.str (url ++ "-" ++ jsTemplate item.title ++ "-" ++ jsTemplate item.pubDate)

/-- Second half of the guid fallback chain `item.id || item.link || template`
(src/index.js:65): the raw link is used under JS truthiness, so a structured
link element (a truthy object) becomes the guid as-is. -/
def fallbackGuidLink (url : String) (item : RawItem) : GuidOut :=
  match item.link with
  | some (RawLink.str s) => if s = "" then syntheticGuid url item else GuidOut.str s
  | some (RawLink.elem a) => GuidOut.linkElem a
  | none => syntheticGuid url item

/-- First half of the guid fallback chain (src/index.js:64-66). -/
def fallbackGuid (url : String) (item : RawItem) : GuidOut :=
  match item.id with
  | some s => if s = "" then fallbackGuidLink url item else GuidOut.str s
  | none => fallbackGuidLink url item

/-- Guid resolution, src/index.js:56-66: unwrap a wrapper object only when its
`_` body is truthy; afterwards `if (!guid)` sends only falsy values (absent or
empty-string guid) to the fallback chain, so a wrapper object with an absent
or empty body is kept as an object. -/
def resolveGuid (url : String) (item : RawItem) : GuidOut :=
  match item.guid with
  | some (RawGuid.str s) => if s = "" then fallbackGuid url item else GuidOut.str s
  | some (RawGuid.wrapped (some t)) =>
    if t = "" then GuidOut.wrappedObj (some t) else GuidOut.str t
  | some (RawGuid.wrapped none) => GuidOut.wrappedObj none
  | none => fallbackGuid url item

/-- Models `$.type?.startsWith('image/')` (src/index.js:41,43): an absent
`type` attribute is `undefined`, hence falsy. -/
def mediaTypeIsImage (a : MediaAttrs) : Bool :=
  match a.type with
  | some t => strStartsWith t "image/"
  | none => false

/-- Worker for `imgSrcMatch`: scans the segments following each `<img`. -/
def imgSrcScan : List (List Char) → Option String
  | [] => none
  | seg :: rest =>
    let upToGt := seg.takeWhile (fun c => c != '>')
    match splitOnSub ("src=\"".data) upToGt with
    | before :: after :: _ =>
      if before ≠ [] then
        let cap := after.takeWhile (fun c => !(c == '"' || c == '>'))
        if cap ≠ [] then some (String.mk cap) else imgSrcScan rest
      else imgSrcScan rest
    | _ => imgSrcScan rest

/-- Executable model of the JS regex match
`description.match(/<img[^>]+src="([^">]+)"/)` at src/index.js:49: find an
`<img` occurrence and capture the value of a `src="..."` attribute appearing
before the tag closes. -/
def imgSrcMatch (desc : String) : Option String :=
  match splitOnSub ("<img".data) desc.data with
  | _ :: segs => imgSrcScan segs
  | [] => none

/-- Tiers 3-4 of the image cascade (src/index.js:45-53): the media:thumbnail
access `item['media:thumbnail'].$.url` throws when the element has no `$`
attribute object; otherwise fall through to the description `<img>` regex. -/
def imageFromThumbnailOrDesc (item : RawItem) : Except String (Option String) :=
  match item.mediaThumbnail with
  | some mt =>
    match mt.attrs with
    | none => Except.error "TypeError: Cannot read properties of undefined (reading 'url')"
    | some a => Except.ok a.url
  | none =>
    match item.description with
    | some d =>
      if d != "" && containsSub ("<img".data) d.data then Except.ok (imgSrcMatch d)
      else Except.ok none
    | none => Except.ok none

/-- Tier 2 of the image cascade (src/index.js:43-44): the access
`item['media:content'].$.type` throws when the element has no `$`. -/
def imageFromMediaContent (item : RawItem) : Except String (Option String) :=
  match item.mediaContent with
  | some mc =>
    match mc.attrs with
    | none => Except.error "TypeError: Cannot read properties of undefined (reading 'type')"
    | some a =>
      if mediaTypeIsImage a then Except.ok a.url else imageFromThumbnailOrDesc item
  | none => imageFromThumbnailOrDesc item

/-- Image resolution (src/index.js:38-53).  `Except.error` models the
TypeError thrown by `item.enclosure.$.type` when an enclosure exists without
a `$` attribute object (the optional chaining sits on `.type`, not on `.$`). -/
def resolveImageUrl (item : RawItem) : Except String (Option String) :=
  match item.enclosure with
  | some enc =>
    match enc.attrs with
    | none => Except.error "TypeError: Cannot read properties of undefined (reading 'type')"
    | some a =>
      if mediaTypeIsImage a then Except.ok a.url else imageFromMediaContent item
  | none => imageFromMediaContent item

/-- Normalization of one raw item (the map callback, src/index.js:36-84): the
image cascade runs first and is the only step that can throw. -/
def normalizeItem (url sourceName : String) (item : RawItem) : Except String CanonicalItem :=
  match resolveImageUrl item with
  | Except.error e => Except.error e
  | Except.ok imageUrl =>
    Except.ok
      { guid := resolveGuid url item
        title := jsOrOpt item.title "No Title"
        description := jsOrOpt item.description (jsOrOpt item.summary "No Description")
        link := resolveLink item.link
        pubDate := jsOrOpt item.pubDate (jsOrOpt item.published (jsOrOpt item.updated "No Date"))
        imageUrl := imageUrl
        source := url
        sourceName := sourceName }

/-- Models `itemsArray.map(...)` (src/index.js:36): a throw at any element
aborts the whole map, discarding the already-normalized elements. -/
def normalizeAll (url sourceName : String) : List RawItem → Except String (List CanonicalItem)
  | [] => Except.ok []
  | i :: rest =>
    match normalizeItem url sourceName i with
    | Except.error e => Except.error e
    | Except.ok c =>
      match normalizeAll url sourceName rest with
      | Except.error e => Except.error e
      | Except.ok cs => Except.ok (c :: cs)

/-- The parsed feed channel (`result.rss?.channel || result.feed`), after the
item/entry extraction and single-item array coercion of src/index.js:27-34. -/
structure RSSChannel where
  title : Option String := none
  items : List RawItem := []

/-- Models `new URL(url).hostname` for well-formed http(s) URLs. -/
def urlHostname (url : String) : String :=
  let rest :=
    match splitOnSub ("://".data) url.data with
    | _ :: r :: _ => r
    | _ => url.data
  String.mk (rest.takeWhile (fun c => !(c == '/' || c == ':' || c == '?' || c == '#')))

/-- Embedding of `fetchRSSFeed` (src/index.js:20-89).  `response` is the
outcome of the feed fetch/parse; the catch at lines 85-88 turns any error -
including a TypeError thrown while normalizing a single item - into an empty
contribution for the whole source. -/
def fetchRSSFeed (url : String) (response : Except String RSSChannel) : List CanonicalItem :=
  match response with
  | Except.error _ => []
  | Except.ok ch =>
    let sourceName := jsOrOpt ch.title (urlHostname url)
    match normalizeAll url sourceName ch.items with
    | Except.error _ => []
    | Except.ok items => items

/-- The selector list of src/index.js:113-126, in source order. -/
def possibleSelectors : List String :=
  ["article", "[role=\"main\"]", "main", ".article-content", ".story-content",
   ".main-content", ".post-content", "#content-body", ".content",
   ".entry-content", ".story-body", "#article-body"]

/-- The selector priority order exactly as the specification lists it
(spec §4.2), written down separately so it can be compared with
`possibleSelectors` taken from the source. -/
def specSelectorOrder : List String :=
  ["article", "[role=\"main\"]", "main", ".article-content", ".story-content",
   ".post-content", ".entry-content", ".story-body", "#article-body",
   ".content", "#content-body", ".main-content"]

/-- The selector loop of src/index.js:131-137: return the first selector in
the list for which the document has at least one matching element. -/
def findContainer (present : String → Bool) : List String → Option String
  | [] => none
  | s :: rest => if present s then some s else findContainer present rest

/-- A fetched article page, as observed through the cheerio queries the
extractor performs (after the non-content elements of src/index.js:107 have
been removed): `count sel` is `$(sel).length`, `paras sel` lists the text of
the `p` elements under the container matched by `sel`, `allParas` the text of
every `p` in the document, and `bodyText` is `$('body').text()` already
trimmed and whitespace-collapsed (src/index.js:178). -/
structure ArticleDoc where
  count : String → Nat
  paras : String → List String
  allParas : List String
  bodyText : String

/-- The extraction cascade of src/index.js:104-183 on a successfully fetched
document. -/
def extractFromDoc (url : String) (d : ArticleDoc) : String :=
  let container := findContainer (fun sel => decide (0 < d.count sel)) possibleSelectors
  let articleContent :=
    match container with
    | some sel =>
      joinWith "\n\n"
        (((d.paras sel).map jsTrim).filter (fun t => t != "" && decide (20 < t.length)))
    | none => ""
  let articleContent :=
    if articleContent = "" ∨ articleContent.length < 200 then
      let texts := (d.allParas.map jsTrim).filter (fun t => t != "" && decide (20 < t.length))
      let significant := texts.filter (fun t => decide (30 < t.length))
      if 0 < significant.length then joinWith "\n\n" significant else articleContent
    else articleContent
  if articleContent ≠ "" ∧ 150 < articleContent.length then articleContent
  else if 200 < d.bodyText.length then d.bodyText
  else "Could not extract meaningful content from " ++ url ++ "."

/-- Embedding of `extractArticleContent` (src/index.js:92-188).  `fetched` is
the outcome of the article GET (15s timeout, spoofed user agent); the catch at
lines 184-187 converts any fetch error into a sentinel string - this function
never throws. -/
def extractArticleContent (url : String) (fetched : Except String ArticleDoc) : String :=
  match fetched with
  | Except.error msg => "Error extracting content: " ++ msg
  | Except.ok d => extractFromDoc url d

/-- The per-item runtime environment of one batch-pipeline item: the outcome
of its article fetch, and whether a runtime exception escaped the item's JS
`try` block (the pure embedding itself cannot throw, so this models the only
remaining way the catch branches of src/index.js:387 and 471 can run). -/
structure ItemRun where
  fetch : Except String ArticleDoc
  threw : Bool
deriving Nonempty

/-- The output record shape of src/index.js:378-386 (same seven keys in all
three branches of the /feeds/all item handler). -/
structure ProcessedItem where
  guid : GuidOut
  title : String
  description : String
  summarized_content : String
  imageUrl : Option String
  sourceName : String
  pubDate : String
deriving DecidableEq

/-- The /feeds/all per-item handler (src/index.js:369-410).  Note the call
sites `summarizeText(x, 60)` pass `minWords = 60` and leave `maxWords` at its
default 60. -/
def processItem (run : ItemRun) (item : CanonicalItem) : ProcessedItem :=
  match item.link with
  | some l =>
    if l != "" && l != "#" then
      if run.threw then
        { guid := item.guid, title := item.title, description := item.description
          summarized_content := summarizeText (jsOr item.description "Summarization failed.") 60 60
          imageUrl := item.imageUrl, sourceName := item.sourceName, pubDate := item.pubDate }
      else
        { guid := item.guid, title := item.title, description := item.description
          summarized_content := summarizeText (extractArticleContent l run.fetch) 60 60
          imageUrl := item.imageUrl, sourceName := item.sourceName, pubDate := item.pubDate }
    else
      { guid := item.guid, title := item.title, description := item.description
        summarized_content := summarizeText (jsOr item.description "No content to summarize.") 60 60
        imageUrl := item.imageUrl, sourceName := item.sourceName, pubDate := item.pubDate }
  | none =>
    { guid := item.guid, title := item.title, description := item.description
      summarized_content := summarizeText (jsOr item.description "No content to summarize.") 60 60
      imageUrl := item.imageUrl, sourceName := item.sourceName, pubDate := item.pubDate }

/-- The batch loop of src/index.js:365-420 over the (already date-sorted)
item list: slices of `batchSize = 3` are processed by `Promise.all`, whose
results are in argument order, and appended in submission order.  The
inter-batch 2s delay does not affect the value. -/
def processBatches (f : CanonicalItem → ProcessedItem) (items : List CanonicalItem) :
    List ProcessedItem :=
  if h : items = [] then []
  else (items.take 3).map f ++ processBatches f (items.drop 3)
termination_by items.length
decreasing_by
  simp only [List.length_drop]
  have : 0 < items.length := List.length_pos.mpr h
  omega

/-- The full /feeds/all item-processing phase: each item is processed in its
own `ItemRun` environment. -/
def processAllItems (runOf : CanonicalItem → ItemRun) (items : List CanonicalItem) :
    List ProcessedItem :=
  processBatches (fun it => processItem (runOf it) it) items

/-- The text that the /feeds/all handler passes to `summarizeText` for a given
item, read off the three call sites src/index.js:376, 393 and 404. -/
def summaryInputAll (run : ItemRun) (item : CanonicalItem) : String :=
  match item.link with
  | some l =>
    if l != "" && l != "#" then
      if run.threw then jsOr item.description "Summarization failed."
      else extractArticleContent l run.fetch
    else jsOr item.description "No content to summarize."
  | none => jsOr item.description "No content to summarize."

/-- The text that the /feeds/item/:guid handler passes to `summarizeText`,
read off the call sites src/index.js:453, 468 and 475. -/
def summaryInputOne (run : ItemRun) (item : CanonicalItem) : String :=
  if run.threw then item.description
  else
    match item.link with
    | some l =>
      if l != "" && l != "#" then extractArticleContent l run.fetch else item.description
    | none => item.description

/-- A JS value sitting in a response object field. -/
inductive JsField
  | str (s : String)
  | nullable (o : Option String)
  | guidVal (g : GuidOut)
deriving DecidableEq

/-- The seven-key response object of src/index.js:456-464. -/
def processedFields (item : CanonicalItem) (summary : String) : List (String × JsField) :=
  [("guid", JsField.guidVal item.guid), ("title", JsField.str item.title),
   ("description", JsField.str item.description),
   ("summarized_content", JsField.str summary),
   ("imageUrl", JsField.nullable item.imageUrl),
   ("sourceName", JsField.str item.sourceName), ("pubDate", JsField.str item.pubDate)]

/-- The spread response object `{...item, summarized_content}` of
src/index.js:466-469 and 473-476: the canonical item's keys in insertion
order, then the new key. -/
def spreadFields (item : CanonicalItem) (summary : String) : List (String × JsField) :=
  [("guid", JsField.guidVal item.guid), ("title", JsField.str item.title),
   ("description", JsField.str item.description),
   ("link", JsField.nullable item.link), ("pubDate", JsField.str item.pubDate),
   ("imageUrl", JsField.nullable item.imageUrl), ("source", JsField.str item.source),
   ("sourceName", JsField.str item.sourceName),
   ("summarized_content", JsField.str summary)]

/-- The /feeds/item/:guid handler body for a found item (src/index.js:448-477),
as the object handed to `res.json`: a resolvable link with no exception yields
the seven-field record; an unresolvable link, or an exception caught at line
471, yields the spread record summarizing `item.description` directly. -/
def itemRouteResponse (run : ItemRun) (item : CanonicalItem) : List (String × JsField) :=
  if run.threw then spreadFields item (summarizeText item.description 60 60)
  else
    match item.link with
    | some l =>
      if l != "" && l != "#" then
        processedFields item (summarizeText (extractArticleContent l run.fetch) 60 60)
      else spreadFields item (summarizeText item.description 60 60)
    | none => spreadFields item (summarizeText item.description 60 60)

/-- Whether a `GuidOut` value is a non-empty string - the property the spec
asserts of every normalized guid. -/
def guidIsNonemptyStr : GuidOut → Bool
  | GuidOut.str s => s != ""
  | GuidOut.wrappedObj _ => false
  | GuidOut.linkElem _ => false

/-! ### Helper lemmas -/

theorem processBatches_eq_map_aux (f : CanonicalItem → ProcessedItem) :
    ∀ (n : Nat) (items : List CanonicalItem), items.length ≤ n →
      processBatches f items = items.map f := by
  intro n
  induction n with
  | zero =>
    intro items hlen
    have hnil : items = [] := List.length_eq_zero.mp (Nat.le_zero.mp hlen)
    subst hnil
    simp [processBatches]
  | succ n ih =>
    intro items hlen
    by_cases hnil : items = []
    · subst hnil; simp [processBatches]
    · rw [processBatches, dif_neg hnil,
        ih (items.drop 3) (by simp only [List.length_drop]; omega),
        ← List.map_append, List.take_append_drop]

/-- The batch loop preserves the input item order exactly: it computes the
plain map over the (post-sort) item list. -/
theorem processBatches_eq_map (f : CanonicalItem → ProcessedItem)
    (items : List CanonicalItem) : processBatches f items = items.map f :=
  processBatches_eq_map_aux f items.length items le_rfl

/-- Characterization of the selector loop: it returns `some s` exactly when
`s` is a matching selector and every selector listed before it fails. -/
theorem findContainer_eq_some_iff (present : String → Bool) :
    ∀ (l : List String) (s : String),
      findContainer present l = some s ↔
        ∃ pre post, l = pre ++ s :: post ∧ present s = true ∧
          ∀ t ∈ pre, present t = false := by
  intro l
  induction l with
  | nil =>
    intro s
    simp [findContainer]
  | cons a as ih =>
    intro s
    by_cases ha : present a = true
    · simp only [findContainer, ha, if_true]
      constructor
      · intro h
        obtain rfl : a = s := by injection h
        exact ⟨[], as, rfl, ha, by simp⟩
      · rintro ⟨pre, post, hl, hs, hfail⟩
        cases pre with
        | nil =>
          simp only [List.nil_append, List.cons.injEq] at hl
          exact congrArg some hl.1
        | cons b bs =>
          simp only [List.cons_append, List.cons.injEq] at hl
          have hb := hfail b (by simp)
          rw [hl.1] at ha
          rw [ha] at hb
          cases hb
    · have ha' : present a = false := by
        cases hpa : present a
        · rfl
        · exact absurd hpa ha
      simp only [findContainer, ha', Bool.false_eq_true, if_false]
      rw [ih s]
      constructor
      · rintro ⟨pre, post, hl, hs, hfail⟩
        refine ⟨a :: pre, post, by rw [hl]; rfl, hs, ?_⟩
        intro t ht
        rcases List.mem_cons.mp ht with rfl | hmem
        · exact ha'
        · exact hfail t hmem
      · rintro ⟨pre, post, hl, hs, hfail⟩
        cases pre with
        | nil =>
          simp only [List.nil_append, List.cons.injEq] at hl
          rw [← hl.1] at hs
          rw [ha'] at hs
          cases hs
        | cons b bs =>
          simp only [List.cons_append, List.cons.injEq] at hl
          exact ⟨bs, post, hl.2, hs, fun t ht => hfail t (List.mem_cons_of_mem _ ht)⟩

/-- If any single raw item of a feed makes the image cascade throw, the whole
normalization map errors out. -/
theorem normalizeAll_err (url sn : String) :
    ∀ (items : List RawItem) (item : RawItem) (e : String),
      item ∈ items → resolveImageUrl item = Except.error e →
      ∃ e2, normalizeAll url sn items = Except.error e2 := by
  intro items
  induction items with
  | nil =>
    intro item e h _
    simp at h
  | cons a as ih =>
    intro item e hmem herr
    rcases List.mem_cons.mp hmem with rfl | hmem
    · exact ⟨e, by simp [normalizeAll, normalizeItem, herr]⟩
    · cases hni : normalizeItem url sn a with
      | error e0 => exact ⟨e0, by simp [normalizeAll, hni]⟩
      | ok c =>
        obtain ⟨e2, h2⟩ := ih item e hmem herr
        exact ⟨e2, by simp [normalizeAll, hni, h2]⟩

/-! ### Claims -/

/-- Claim C7: the summarizer is deterministic - any two runs on identical
`(text, minWords, maxWords)` inputs produce identical output.  The embedding
of `summarizeText` is a total function with no hidden state: the source uses
no randomness, and its only order-sensitive steps are the stable
`Array.prototype.sort` calls, which are themselves deterministic. -/
theorem summarizeText_deterministic :
    ∀ (t1 t2 : String) (mn1 mn2 mx1 mx2 : Nat),
      t1 = t2 → mn1 = mn2 → mx1 = mx2 →
      summarizeText t1 mn1 mx1 = summarizeText t2 mn2 mx2 := by
  intro t1 t2 mn1 mn2 mx1 mx2 h1 h2 h3
  rw [h1, h2, h3]

/-- Witness for C7 at a concrete input. -/
theorem summarizeText_deterministic_witness :
    summarizeText "A concrete text." 55 60 = summarizeText "A concrete text." 55 60 :=
  summarizeText_deterministic "A concrete text." "A concrete text." 55 55 60 60 rfl rfl rfl

/-- Claim C8: in process-all the output item order equals the post-sort input
item order regardless of per-item completion timing - the batch loop over the
sorted items computes exactly the pointwise map, so within each size-3 batch
output order matches input order and the overall output is the concatenation
of the batches in submission order.  (Completion timing is absorbed by the
embedding of `Promise.all`, which per its JS semantics resolves with results
in argument order, not completion order.) -/
theorem processAll_order_preserved :
    ∀ (runOf : CanonicalItem → ItemRun) (items : List CanonicalItem),
      processAllItems runOf items = items.map (fun it => processItem (runOf it) it) := by
  intro runOf items
  unfold processAllItems
  exact processBatches_eq_map _ items

/-- Counterexample to claim C1 as stated: for an item with a resolvable link
whose article fetch fails (a timeout), the produced `summarized_content` is a
summary of the extractor's error sentinel text, not a summary of the item's
feed-supplied description (under the pipeline's own bounds 60/60, nor under
the spec-default bounds 55/60). -/
theorem extraction_failure_feeds_error_text :
    (processItem ⟨Except.error "timeout of 15000ms exceeded", false⟩
        ⟨GuidOut.str "g1", "T", "A short description.", some "https://example.com/a", "No Date",
         none, "https://example.com/feed", "Example"⟩).summarized_content
      = summarizeText ("Error extracting content: " ++ "timeout of 15000ms exceeded") 60 60
    ∧ (processItem ⟨Except.error "timeout of 15000ms exceeded", false⟩
        ⟨GuidOut.str "g1", "T", "A short description.", some "https://example.com/a", "No Date",
         none, "https://example.com/feed", "Example"⟩).summarized_content
      ≠ summarizeText "A short description." 60 60
    ∧ (processItem ⟨Except.error "timeout of 15000ms exceeded", false⟩
        ⟨GuidOut.str "g1", "T", "A short description.", some "https://example.com/a", "No Date",
         none, "https://example.com/feed", "Example"⟩).summarized_content
      ≠ summarizeText "A short description." 55 60 := by
  refine ⟨by decide, by decide, by decide⟩

/-- Claim C1, amended: a content-extraction failure does not throw - the
extractor returns an error sentinel string, and the pipeline summarizes that
sentinel, so the item's `summarized_content` is a summary of the error text;
the description fallback runs only when the item's JS `try` block throws.
Failure isolation does hold: each output slot depends only on its own item
and that item's own runtime environment. -/
theorem extraction_failure_summarizes_sentinel_and_isolated :
    (∀ (runOf : CanonicalItem → ItemRun) (items : List CanonicalItem) (i : Nat)
        (h : i < items.length),
        (processAllItems runOf items)[i]? =
          some (processItem (runOf items[i]) items[i]))
    ∧ (∀ (run : ItemRun) (item : CanonicalItem) (l msg : String),
        item.link = some l → (l != "" && l != "#") = true → run.threw = false →
        run.fetch = Except.error msg →
        (processItem run item).summarized_content =
          summarizeText ("Error extracting content: " ++ msg) 60 60) := by
  constructor
  · intro runOf items i h
    rw [processAllItems, processBatches_eq_map]
    rw [List.getElem?_eq_getElem (by simpa using h)]
    simp
  · intro run item l msg hlink hok hthrew hfetch
    simp [processItem, hlink, hok, hthrew, hfetch, extractArticleContent]

/-- Witness for the amended C1 at concrete inputs. -/
theorem extraction_failure_summarizes_sentinel_witness :
    (processAllItems
        (fun _ => ⟨Except.error "refused", false⟩)
        [⟨GuidOut.str "g1", "T", "D.", some "https://example.com/a", "P", none, "s", "n"⟩])[0]? =
      some (processItem ⟨Except.error "refused", false⟩
        ⟨GuidOut.str "g1", "T", "D.", some "https://example.com/a", "P", none, "s", "n"⟩)
    ∧ (processItem ⟨Except.error "refused", false⟩
        ⟨GuidOut.str "g1", "T", "D.", some "https://example.com/a", "P", none, "s", "n"⟩).summarized_content
      = summarizeText ("Error extracting content: " ++ "refused") 60 60 :=
  ⟨extraction_failure_summarizes_sentinel_and_isolated.1
      (fun _ => ⟨Except.error "refused", false⟩)
      [⟨GuidOut.str "g1", "T", "D.", some "https://example.com/a", "P", none, "s", "n"⟩]
      0 (by decide),
   extraction_failure_summarizes_sentinel_and_isolated.2
      ⟨Except.error "refused", false⟩
      ⟨GuidOut.str "g1", "T", "D.", some "https://example.com/a", "P", none, "s", "n"⟩
      "https://example.com/a" "refused" rfl (by decide) rfl rfl⟩

/-- Counterexample to claim C2 as stated: the batch pipeline does not use the
default summarizer bounds `minWords = 55`, `maxWords = 60` - a concrete item
whose description has 30 words (89 characters) is summarized differently from
`summarizeText description 55 60`, because every pipeline call site passes
`minWords = 60`. -/
theorem pipeline_does_not_use_55_60 :
    (processItem ⟨Except.error "e", false⟩
        ⟨GuidOut.str "g", "T",
         "aa aa aa aa aa aa aa aa aa aa aa aa aa aa aa aa aa aa aa aa aa aa aa aa aa aa aa aa aa aa",
         none, "No Date", none, "src", "SN"⟩).summarized_content
      ≠ summarizeText
          "aa aa aa aa aa aa aa aa aa aa aa aa aa aa aa aa aa aa aa aa aa aa aa aa aa aa aa aa aa aa"
          55 60 := by
  decide

/-- Claim C2, amended: every summarization performed by the batch pipeline
(process-all and process-one) passes `minWords = 60` explicitly and uses the
source default `maxWords = 60`; the default `minWords = 55` is never used by
either route. -/
theorem pipeline_summaries_use_60_60 :
    ∀ (run : ItemRun) (item : CanonicalItem),
      (processItem run item).summarized_content =
        summarizeText (summaryInputAll run item) 60 60
      ∧ ("summarized_content",
          JsField.str (summarizeText (summaryInputOne run item) 60 60)) ∈
            itemRouteResponse run item := by
  intro run item
  constructor
  · cases hl : item.link with
    | none => simp [processItem, summaryInputAll, hl]
    | some l =>
      cases hthrew : run.threw with
      | false =>
        by_cases hb : (l != "" && l != "#") = true <;>
          simp [processItem, summaryInputAll, hl, hb, hthrew]
      | true =>
        by_cases hb : (l != "" && l != "#") = true <;>
          simp [processItem, summaryInputAll, hl, hb, hthrew]
  · cases hthrew : run.threw with
    | true => simp [itemRouteResponse, summaryInputOne, hthrew, spreadFields]
    | false =>
      cases hl : item.link with
      | none => simp [itemRouteResponse, summaryInputOne, hl, hthrew, spreadFields]
      | some l =>
        by_cases hb : (l != "" && l != "#") = true <;>
          simp [itemRouteResponse, summaryInputOne, hl, hb, hthrew, spreadFields,
            processedFields]

/-- Counterexample to claim C3 as stated: a feed item with no link field at
all is normalized to a CanonicalItem whose `link` is absent (`undefined`),
not the sentinel "#" - the `typeof link === 'object'` guard does not fire for
`undefined`. -/
theorem absent_link_stays_absent :
    (normalizeItem "https://example.com/feed" "Example"
        ⟨some (RawGuid.str "g"), none, none, some "T", some "D", none, some "P",
         none, none, none, none, none⟩).map CanonicalItem.link = Except.ok none := by
  rfl

/-- Claim C3, amended: the normalized `link` is the item's plain-string link
when one exists; for a structured link element with a `$` attribute object it
is that object's `href` (absent when there is no `href` attribute); the
sentinel "#" is produced only when a structured element lacks its attribute
object; and an item with no link field keeps an absent (`undefined`) link -
so the field can be absent, contrary to the never-null invariant. -/
theorem link_resolution_cases :
    resolveLink none = none
    ∧ (∀ s, resolveLink (some (RawLink.str s)) = some s)
    ∧ (∀ a, resolveLink (some (RawLink.elem (some a))) = a.href)
    ∧ resolveLink (some (RawLink.elem none)) = some "#"
    ∧ (∀ url sn item c, normalizeItem url sn item = Except.ok c →
        c.link = resolveLink item.link) := by
  refine ⟨rfl, fun s => rfl, fun a => rfl, rfl, ?_⟩
  intro url sn item c h
  unfold normalizeItem at h
  cases himg : resolveImageUrl item with
  | error e =>
    rw [himg] at h
    exact absurd h (by simp)
  | ok iu =>
    rw [himg] at h
    injection h with h2
    rw [← h2]

/-- Witness for the amended C3 at a concrete input. -/
theorem link_resolution_cases_witness :
    normalizeItem "https://example.com/feed" "Example"
        ⟨some (RawGuid.str "g"), none, some (RawLink.str "https://example.com/a"), some "T",
         some "D", none, some "P", none, none, none, none, none⟩ =
      Except.ok
        (⟨GuidOut.str "g", "T", "D", some "https://example.com/a", "P", none,
          "https://example.com/feed", "Example"⟩ : CanonicalItem)
    ∧ (⟨GuidOut.str "g", "T", "D", some "https://example.com/a", "P", none,
        "https://example.com/feed", "Example"⟩ : CanonicalItem).link =
      resolveLink (some (RawLink.str "https://example.com/a")) :=
  ⟨by rfl,
   link_resolution_cases.2.2.2.2 "https://example.com/feed" "Example"
     ⟨some (RawGuid.str "g"), none, some (RawLink.str "https://example.com/a"), some "T",
      some "D", none, some "P", none, none, none, none, none⟩
     ⟨GuidOut.str "g", "T", "D", some "https://example.com/a", "P", none,
      "https://example.com/feed", "Example"⟩
     (by rfl)⟩

/-- Counterexample to claim C4 as stated: a feed item whose guid field is a
wrapper object with no text body is normalized to a guid that is the wrapper
object itself - not a non-empty string - because the unwrap guard requires a
truthy `_` body and `if (!guid)` does not fire for a (truthy) object. -/
theorem wrapper_guid_is_not_a_string :
    guidIsNonemptyStr
      (resolveGuid "https://example.com/feed"
        ⟨some (RawGuid.wrapped none), none, none, some "T", none, none, some "P",
         none, none, none, none, none⟩) = false
    ∧ resolveGuid "https://example.com/feed"
        ⟨some (RawGuid.wrapped none), none, none, some "T", none, none, some "P",
         none, none, none, none, none⟩ = GuidOut.wrappedObj none := by
  refine ⟨by decide, by decide⟩

/-- Claim C4, amended: the guid is resolved in the order own guid (unwrapped
when the wrapper has a non-empty text body) / id / link / synthetic
`sourceURL-title-pubDate` key, and is a non-empty string whenever the fields
hit in that chain are absent or plain non-empty strings - in particular an
item lacking guid, id and link gets the non-empty synthetic key (for a
non-empty source URL).  However a wrapper object without a truthy text body,
or a structured link element used as the fallback, is passed through as an
object rather than a string. -/
theorem guid_resolution_order :
    (∀ url item s, item.guid = some (RawGuid.str s) → s ≠ "" →
        resolveGuid url item = GuidOut.str s)
    ∧ (∀ url item t, item.guid = some (RawGuid.wrapped (some t)) → t ≠ "" →
        resolveGuid url item = GuidOut.str t)
    ∧ (∀ url item s, item.guid = none → item.id = some s → s ≠ "" →
        resolveGuid url item = GuidOut.str s)
    ∧ (∀ url item s, item.guid = none → item.id = none →
        item.link = some (RawLink.str s) → s ≠ "" →
        resolveGuid url item = GuidOut.str s)
    ∧ (∀ url item, item.guid = none → item.id = none → item.link = none →
        resolveGuid url item =
          GuidOut.str (url ++ "-" ++ jsTemplate item.title ++ "-" ++ jsTemplate item.pubDate)
        ∧ (0 < url.length → guidIsNonemptyStr (resolveGuid url item) = true)) := by
  refine ⟨?_, ?_, ?_, ?_, ?_⟩
  · intro url item s hg hs
    simp [resolveGuid, hg, hs]
  · intro url item t hg ht
    simp [resolveGuid, hg, ht]
  · intro url item s hg hid hs
    simp [resolveGuid, hg, fallbackGuid, hid, hs]
  · intro url item s hg hid hlink hs
    simp [resolveGuid, hg, fallbackGuid, hid, fallbackGuidLink, hlink, hs]
  · intro url item hg hid hlink
    have hsyn : resolveGuid url item =
        GuidOut.str (url ++ "-" ++ jsTemplate item.title ++ "-" ++ jsTemplate item.pubDate) := by
      simp [resolveGuid, hg, fallbackGuid, hid, fallbackGuidLink, hlink, syntheticGuid]
    refine ⟨hsyn, ?_⟩
    intro hurl
    rw [hsyn]
    have hlen : (url ++ "-" ++ jsTemplate item.title ++ "-" ++
        jsTemplate item.pubDate).length ≠ 0 := by
      simp only [String.length_append]
      omega
    simp only [guidIsNonemptyStr, bne_iff_ne, ne_eq, decide_eq_true_eq]
    intro hcontra
    rw [hcontra] at hlen
    exact hlen rfl

/-- Witness for the amended C4 at a concrete input lacking guid, id and link. -/
theorem guid_resolution_order_witness :
    resolveGuid "https://example.com/feed"
        ⟨none, none, none, some "T", none, none, some "P", none, none, none, none, none⟩ =
      GuidOut.str ("https://example.com/feed" ++ "-" ++ jsTemplate (some "T") ++ "-" ++
        jsTemplate (some "P"))
    ∧ (0 < ("https://example.com/feed" : String).length →
        guidIsNonemptyStr
          (resolveGuid "https://example.com/feed"
            ⟨none, none, none, some "T", none, none, some "P", none, none, none, none,
             none⟩) = true) :=
  guid_resolution_order.2.2.2.2 "https://example.com/feed"
    ⟨none, none, none, some "T", none, none, some "P", none, none, none, none, none⟩
    rfl rfl rfl

/-- Counterexample to claim C5 as stated: the source tries the selectors in a
different order than the spec lists - on a document where both `.main-content`
and `.post-content` match, the source picks `.main-content` while the
spec-listed priority order would pick `.post-content`; the two orders are not
equal. -/
theorem selector_order_differs_from_spec :
    findContainer (fun s => s == ".main-content" || s == ".post-content")
        possibleSelectors = some ".main-content"
    ∧ findContainer (fun s => s == ".main-content" || s == ".post-content")
        specSelectorOrder = some ".post-content"
    ∧ possibleSelectors ≠ specSelectorOrder := by
  refine ⟨by decide, by decide, by decide⟩

/-- Claim C5, amended: the extractor tries the same twelve selectors the spec
lists and uses the first selector matching at least one element, but in the
source order `article`, `[role="main"]`, `main`, `.article-content`,
`.story-content`, `.main-content`, `.post-content`, `#content-body`,
`.content`, `.entry-content`, `.story-body`, `#article-body` - with
`.main-content` promoted to sixth place rather than last. -/
theorem selector_priority_first_match :
    possibleSelectors =
      ["article", "[role=\"main\"]", "main", ".article-content", ".story-content",
       ".main-content", ".post-content", "#content-body", ".content",
       ".entry-content", ".story-body", "#article-body"]
    ∧ possibleSelectors.Perm specSelectorOrder
    ∧ (∀ (present : String → Bool) (s : String),
        findContainer present possibleSelectors = some s →
        ∃ pre post, possibleSelectors = pre ++ s :: post ∧ present s = true ∧
          ∀ t ∈ pre, present t = false) := by
  refine ⟨rfl, by decide, ?_⟩
  intro present s h
  exact (findContainer_eq_some_iff present possibleSelectors s).mp h

/-- Witness for the amended C5 at a concrete predicate. -/
theorem selector_priority_first_match_witness :
    ∃ pre post, possibleSelectors = pre ++ ".main-content" :: post ∧
      (fun s => s == ".main-content" || s == ".post-content") ".main-content" = true ∧
      ∀ t ∈ pre, (fun s => s == ".main-content" || s == ".post-content") t = false :=
  selector_priority_first_match.2.2
    (fun s => s == ".main-content" || s == ".post-content") ".main-content" (by decide)

/-- Counterexample to claim C6 as stated: the non-empty 3-character text
"a b" has 2 words, below the default `minWords = 55`, yet the summarizer's
padded output "a b a b" has only 4 words - the padding appends the leading
words once and does not repeat them until `minWords` is reached. -/
theorem short_text_padding_falls_short :
    ("a b" : String) ≠ ""
    ∧ ("a b" : String).length < 100
    ∧ (jsSplitWs "a b").length < 55
    ∧ summarizeText "a b" 55 60 = "a b a b"
    ∧ (jsSplitWs (summarizeText "a b" 55 60)).length < 55 := by
  refine ⟨by decide, by decide, by decide, by decide, by decide⟩

/-- Claim C6, amended: for non-empty text under 100 characters with word
count `wc` below `minWords`, the summarizer appends - once - the first
`minWords - wc` of the text's own words, i.e. at most `wc` additional words;
the output therefore reaches `minWords` words only when the text already has
at least `minWords / 2` words (it appends `min (minWords - wc) wc` words). -/
theorem short_text_padding_appends_once :
    ∀ (text : String) (minWords maxWords : Nat),
      text ≠ "" → text.length < 100 → (jsSplitWs text).length < minWords →
      summarizeText text minWords maxWords =
        text ++ " " ++
          joinWith " " ((jsSplitWs text).take (minWords - (jsSplitWs text).length))
      ∧ ((jsSplitWs text).take (minWords - (jsSplitWs text).length)).length =
          min (minWords - (jsSplitWs text).length) (jsSplitWs text).length := by
  intro text minWords maxWords h1 h2 h3
  constructor
  · unfold summarizeText
    rw [if_neg h1, if_pos h2]
    simp [h3]
  · simp [List.length_take]

/-- Witness for the amended C6 at a concrete input. -/
theorem short_text_padding_appends_once_witness :
    summarizeText "one two three" 55 60 =
      "one two three" ++ " " ++
        joinWith " " ((jsSplitWs "one two three").take (55 - (jsSplitWs "one two three").length))
    ∧ ((jsSplitWs "one two three").take (55 - (jsSplitWs "one two three").length)).length =
        min (55 - (jsSplitWs "one two three").length) (jsSplitWs "one two three").length :=
  short_text_padding_appends_once "one two three" 55 60 (by decide) (by decide) (by decide)

/-- Claim C9: within a single feed, per-item failures are not isolated - if
any one item's enclosure (or media element) lacks its `$` attribute object,
the thrown TypeError is caught only by the source-level catch, so the whole
source contributes an empty item list, dropping the feed's well-formed items
too. -/
theorem feed_item_failure_drops_whole_feed :
    ∀ (url : String) (ch : RSSChannel) (item : RawItem) (e : String),
      item ∈ ch.items → resolveImageUrl item = Except.error e →
      fetchRSSFeed url (Except.ok ch) = [] := by
  intro url ch item e hmem herr
  obtain ⟨e2, h2⟩ := normalizeAll_err url (jsOrOpt ch.title (urlHostname url)) ch.items item e hmem herr
  simp [fetchRSSFeed, h2]

/-- Witness for C9: a three-item feed whose middle item has an enclosure
without attributes contributes nothing, although its other two items are
well-formed. -/
theorem feed_item_failure_drops_whole_feed_witness :
    ({ enclosure := some ⟨none⟩ } : RawItem) ∈
      (⟨some "Feed", [{ title := some "A" }, { enclosure := some ⟨none⟩ },
        { title := some "B" }]⟩ : RSSChannel).items
    ∧ resolveImageUrl ({ enclosure := some ⟨none⟩ } : RawItem) =
        Except.error "TypeError: Cannot read properties of undefined (reading 'type')"
    ∧ fetchRSSFeed "https://example.com/feed"
        (Except.ok ⟨some "Feed", [{ title := some "A" }, { enclosure := some ⟨none⟩ },
          { title := some "B" }]⟩) = [] :=
  ⟨by simp, by rfl,
   feed_item_failure_drops_whole_feed "https://example.com/feed"
     ⟨some "Feed", [{ title := some "A" }, { enclosure := some ⟨none⟩ },
       { title := some "B" }]⟩
     ({ enclosure := some ⟨none⟩ } : RawItem)
     "TypeError: Cannot read properties of undefined (reading 'type')"
     (by simp) (by rfl)⟩

/-- Claim C10: process-one returns differently shaped records depending on the
link - a found item with a resolvable link (and no processing exception)
yields exactly the seven ProcessedItem keys, while an unresolvable link or a
caught processing exception yields the spread of the whole canonical item
plus `summarized_content`, so that response additionally carries the `link`
and `source` fields. -/
theorem item_route_response_shapes :
    (∀ (run : ItemRun) (item : CanonicalItem) (l : String),
        run.threw = false → item.link = some l → (l != "" && l != "#") = true →
        (itemRouteResponse run item).map Prod.fst =
          ["guid", "title", "description", "summarized_content", "imageUrl",
           "sourceName", "pubDate"])
    ∧ (∀ (run : ItemRun) (item : CanonicalItem),
        run.threw = true ∨ item.link = none ∨
          (∃ l, item.link = some l ∧ (l != "" && l != "#") = false) →
        (itemRouteResponse run item).map Prod.fst =
          ["guid", "title", "description", "link", "pubDate", "imageUrl", "source",
           "sourceName", "summarized_content"]
        ∧ ("link", JsField.nullable item.link) ∈ itemRouteResponse run item
        ∧ ("source", JsField.str item.source) ∈ itemRouteResponse run item) := by
  constructor
  · intro run item l hthrew hlink hok
    simp [itemRouteResponse, hthrew, hlink, hok, processedFields]
  · intro run item hcase
    rcases hcase with hthrew | hnone | ⟨l, hlink, hbad⟩
    · refine ⟨?_, ?_, ?_⟩ <;> simp [itemRouteResponse, hthrew, spreadFields]
    · cases hthrew : run.threw <;>
        refine ⟨?_, ?_, ?_⟩ <;> simp [itemRouteResponse, hthrew, hnone, spreadFields]
    · cases hthrew : run.threw <;>
        refine ⟨?_, ?_, ?_⟩ <;> simp [itemRouteResponse, hthrew, hlink, hbad, spreadFields]

/-- Witness for C10 at concrete inputs: one resolvable-link item and one
linkless item. -/
theorem item_route_response_shapes_witness :
    (itemRouteResponse ⟨Except.error "e", false⟩
        ⟨GuidOut.str "g", "T", "D", some "https://example.com/a", "P", none, "S",
         "SN"⟩).map Prod.fst =
      ["guid", "title", "description", "summarized_content", "imageUrl", "sourceName",
       "pubDate"]
    ∧ ((itemRouteResponse ⟨Except.error "e", false⟩
          ⟨GuidOut.str "g", "T", "D", none, "P", none, "S", "SN"⟩).map Prod.fst =
        ["guid", "title", "description", "link", "pubDate", "imageUrl", "source",
         "sourceName", "summarized_content"]
      ∧ ("link", JsField.nullable (⟨GuidOut.str "g", "T", "D", none, "P", none, "S",
          "SN"⟩ : CanonicalItem).link) ∈
          itemRouteResponse ⟨Except.error "e", false⟩
            ⟨GuidOut.str "g", "T", "D", none, "P", none, "S", "SN"⟩
      ∧ ("source", JsField.str (⟨GuidOut.str "g", "T", "D", none, "P", none, "S",
          "SN"⟩ : CanonicalItem).source) ∈
          itemRouteResponse ⟨Except.error "e", false⟩
            ⟨GuidOut.str "g", "T", "D", none, "P", none, "S", "SN"⟩) :=
  ⟨item_route_response_shapes.1 ⟨Except.error "e", false⟩
     ⟨GuidOut.str "g", "T", "D", some "https://example.com/a", "P", none, "S", "SN"⟩
     "https://example.com/a" rfl rfl (by decide),
   item_route_response_shapes.2 ⟨Except.error "e", false⟩
     ⟨GuidOut.str "g", "T", "D", none, "P", none, "S", "SN"⟩
     (Or.inr (Or.inl rfl))⟩

end NewsAgg
